import Mathlib

/-!
Verification of the plan-execute scheduler of the `damijanagent` orchestrator.

The development shallowly embeds the scheduler core of the repository:

* `src/orchestrator/models/state.py`   — data model (`TodoItem`, `ToolExecution`,
  `OrchestratorState`),
* `src/orchestrator/nodes/executor.py` — readiness resolver and execution engine,
* `src/orchestrator/nodes/checker.py`  — transition checker,
* `src/orchestrator/nodes/replanner.py`— replanning coordinator,
* `src/orchestrator/nodes/planner.py`  — planner output installation,
* `src/orchestrator/graph.py`          — run controller (conditional edges).

External collaborators (LLM calls, webhooks) are modelled as oracle inputs:
every node is embedded as a pure function of the state and of the (parsed)
collaborator response, exactly mirroring the post-call control flow of the
Python source.  Wall-clock timestamps (`executed_at` on an execution record)
are outside the functional model and are omitted.
-/

namespace DamijanAgent

/-- The `Literal["pending", "running", "done", "failed"]` status type of
`TodoItem.status` in `src/orchestrator/models/state.py`. -/
inductive Status
  | pending
  | running
  | done
  | failed
deriving DecidableEq, Repr

/-- `TodoItem` from `src/orchestrator/models/state.py`: one planned unit of
work.  `result` and `error` are optional strings (`str | None`). -/
structure TodoItem where
  id : String
  tool : String
  description : String
  depends_on : List String
  status : Status
  result : Option String
  error : Option String
deriving DecidableEq, Repr

/-- `ToolExecution` from `src/orchestrator/models/state.py`: the record of one
tool invocation.  The `executed_at` wall-clock field is omitted (it is never
read by the scheduler). `output` is `dict | str | None`; only its string
rendering matters to the scheduler, so it is modelled as `Option String`. -/
structure ToolExecution where
  todo_id : String
  tool_name : String
  input_context : String
  output : Option String
  success : Bool
  error_message : Option String
deriving DecidableEq, Repr

/-- The scheduler-relevant fields of `OrchestratorState`
(`src/orchestrator/models/state.py`).  `run_id`, `user_id`, `channel_id` and
`conversation_history` are only threaded to logging/prompts and are omitted. -/
structure OrchestratorState where
  user_message : String
  todo_list : List TodoItem
  current_step_index : Nat
  plan_reasoning : String
  executed_steps : List ToolExecution
  needs_clarification : Bool
  clarification_question : String
  final_response : String
  error : Option String
  retry_count : Nat
deriving DecidableEq, Repr

/-! ## Readiness resolver (`src/orchestrator/nodes/executor.py`) -/

/-- `get_completed_step_ids` (executor.py, lines 22-28): ids of all execution
records with `success = True`.  The Python set is modelled as a list queried
by membership. -/
def get_completed_step_ids (executed_steps : List ToolExecution) : List String :=
  (executed_steps.filter (fun step => step.success)).map (fun step => step.todo_id)

/-- `get_next_ready_todo` (executor.py, lines 31-57): first todo in declared
order whose status is `pending` and whose dependencies all have a successful
execution record. -/
def get_next_ready_todo (todos : List TodoItem)
    (executed_steps : List ToolExecution) : Option TodoItem :=
  let completed_ids := get_completed_step_ids executed_steps
  todos.find? (fun todo =>
    decide (todo.status = Status.pending) &&
      todo.depends_on.all (fun dep_id => completed_ids.contains dep_id))

/-- `has_ready_todo` (checker.py, lines 14-37): the checker's own copy of the
readiness scan, returning only a boolean. -/
def has_ready_todo (todos : List TodoItem)
    (executed_steps : List ToolExecution) : Bool :=
  let completed_ids :=
    (executed_steps.filter (fun step => step.success)).map (fun step => step.todo_id)
  todos.any (fun todo =>
    decide (todo.status = Status.pending) &&
      todo.depends_on.all (fun dep_id => completed_ids.contains dep_id))

/-! ## Transition checker (`src/orchestrator/nodes/checker.py`) -/

/-- `check_todo_status` (checker.py, lines 40-82): the conditional-edge
decision function, an if-chain evaluated top to bottom. -/
def check_todo_status (state : OrchestratorState) : String :=
  let todos := state.todo_list
  if state.needs_clarification then "needs_clarify"
  else if todos.isEmpty then "direct_response"
  else if todos.all (fun t => decide (t.status = Status.done)) then "all_done"
  else if todos.any (fun t => decide (t.status = Status.failed)) then
    if state.retry_count ≥ 2 then "all_done" else "needs_replan"
  else if has_ready_todo todos state.executed_steps then "has_pending"
  else "needs_replan"

/-- `after_planner_check` (checker.py, lines 85-100): decision right after the
planner. -/
def after_planner_check (state : OrchestratorState) : String :=
  if state.needs_clarification then "needs_clarify"
  else if state.todo_list.isEmpty then "direct_response"
  else "has_pending"

/-! ## Execution engine (`src/orchestrator/nodes/executor.py`) -/

/-- Python truthiness of an optional string (`if result:` on `str | None`):
true exactly when the value is present and non-empty. -/
def strTruthy : Option String → Bool
  | none => false
  | some s => !s.isEmpty

/-- `update_todo_status` (executor.py, lines 200-220): rebuild the list,
replacing every todo whose id matches; `result`/`error` are overwritten only
when truthy (the Python `if result:` / `if error:` guards). -/
def update_todo_status (todos : List TodoItem) (todo_id : String)
    (new_status : Status) (result : Option String) (error : Option String) :
    List TodoItem :=
  todos.map (fun todo =>
    if todo.id = todo_id then
      { todo with
        status := new_status
        result := if strTruthy result then result else todo.result
        error := if strTruthy error then error else todo.error }
    else todo)

/-- `build_context_with_results` (executor.py, lines 60-78): the invocation
context: the description plus, when there are dependencies, a delimiter and
the outputs of the successful records of those dependencies.
A `None` output renders as the Python string `"None"`. -/
def build_context_with_results (todo : TodoItem)
    (executed_steps : List ToolExecution) : String :=
  let context_parts := [todo.description]
  let context_parts :=
    if todo.depends_on.isEmpty then context_parts
    else
      context_parts ++ ["\n\n--- Ergebnisse aus vorherigen Schritten ---"] ++
        ((executed_steps.filter (fun step =>
            todo.depends_on.contains step.todo_id && step.success)).map
          (fun step =>
            "\n[" ++ step.tool_name ++ "]: " ++ step.output.getD "None"))
  String.intercalate "\n" context_parts

/-- The `{success, output, error}` dictionary returned by `call_n8n_webhook`
(executor.py, lines 81-161).  The webhook call itself is an external
collaborator; its parsed outcome is an oracle input to the engine. -/
structure ToolResult where
  success : Bool
  output : Option String
  error : Option String
deriving DecidableEq, Repr

/-- The delta dictionary returned by `executor_node`: either the empty dict
or `{executed_steps, todo_list, current_step_index}`.  `executed_steps`
merges by append (`operator.add` annotation), the other two replace. -/
structure ExecDelta where
  executed_steps : List ToolExecution
  todo_list : Option (List TodoItem)
  current_step_index : Option Nat
deriving DecidableEq, Repr

/-- `executor_node` (executor.py, lines 223-287) with the webhook outcome
supplied as the oracle input `tool_result`: select the next ready todo (none:
empty delta), mark it running, build the context, record the execution, and
set the final status from `success`. -/
def executor_node (state : OrchestratorState) (tool_result : ToolResult) :
    ExecDelta :=
  let todos := state.todo_list
  let executed_steps := state.executed_steps
  match get_next_ready_todo todos executed_steps with
  | none => ⟨[], none, none⟩
  | some todo =>
    let todos1 := update_todo_status todos todo.id Status.running none none
    let context := build_context_with_results todo executed_steps
    let execution : ToolExecution :=
      ⟨todo.id, todo.tool, context, tool_result.output, tool_result.success,
        tool_result.error⟩
    let new_status := if tool_result.success then Status.done else Status.failed
    let todos2 := update_todo_status todos1 todo.id new_status
      (some (tool_result.output.getD "None")) tool_result.error
    ⟨[execution], some todos2, some (state.current_step_index + 1)⟩

/-! ## Planner (`src/orchestrator/nodes/planner.py`)

The LLM call and JSON parsing are external; the parsed outcome is the oracle
input.  A raw todo models one `todo_data` dictionary from the parsed JSON:
every field may be absent (`dict.get` with a default in the source). -/

/-- One `todo_data` dictionary of the parsed planner/replanner JSON. -/
structure RawTodo where
  id : Option String
  tool : Option String
  description : Option String
  depends_on : Option (List String)
  status : Option Status
deriving DecidableEq, Repr

/-- The parsed outcome of the planner's LLM call (planner.py, lines 114-165):
timeout, exception, unparseable JSON, or a parsed plan dictionary whose
fields are all optional (`plan_data.get`). -/
inductive PlannerResponse
  | llmTimeout
  | llmException (typeName : String) (message : String)
  | parseFailure (message : String)
  | parsed (todos : Option (List RawTodo)) (reasoning : Option String)
      (needs_clarification : Option Bool) (clarification_question : Option String)
deriving DecidableEq, Repr

/-- The delta dictionary returned by `planner_node`. -/
structure PlannerDelta where
  todo_list : List TodoItem
  plan_reasoning : String
  needs_clarification : Bool
  clarification_question : String
  error : Option String
  current_step_index : Option Nat
deriving DecidableEq, Repr

/-- The todo built from one raw dictionary by the planner's construction
loop (planner.py, lines 170-176), given `n` = `len(todos) + 1` at that
point: defaults `id = "step_n"`, `tool = "none"`, empty description and
dependencies, and status forced to `pending`. -/
def planner_item (todo_data : RawTodo) (n : Nat) : TodoItem :=
  ⟨todo_data.id.getD ("step_" ++ toString n),
    todo_data.tool.getD "none",
    todo_data.description.getD "",
    todo_data.depends_on.getD [],
    Status.pending, none, none⟩

/-- The todo-construction loop of `planner_node` (planner.py, lines
167-177). -/
def build_planner_todos (raws : List RawTodo) : List TodoItem :=
  raws.foldl
    (fun todos todo_data => todos ++ [planner_item todo_data (todos.length + 1)])
    []

/-- `planner_node` (planner.py, lines 78-185) after the LLM call, as a
function of the parsed outcome. -/
def planner_node (resp : PlannerResponse) : PlannerDelta :=
  match resp with
  | .llmTimeout =>
    ⟨[], "LLM-Timeout: Keine Antwort nach 90s", false, "",
      some "LLM timeout after 90s", none⟩
  | .llmException typeName message =>
    ⟨[], "LLM-Fehler: " ++ typeName, false, "", some message, none⟩
  | .parseFailure message =>
    ⟨[], "Fehler beim Parsen des Plans: " ++ message, true,
      "Ich konnte deinen Request nicht verstehen. Kannst du das nochmal anders formulieren?",
      some message, none⟩
  | .parsed todos reasoning needs_clarification clarification_question =>
    ⟨build_planner_todos (todos.getD []),
      reasoning.getD "",
      needs_clarification.getD false,
      clarification_question.getD "",
      none, some 0⟩

/-! ## Replanning coordinator (`src/orchestrator/nodes/replanner.py`) -/

/-- The parsed outcome of the replanner's LLM call (replanner.py, lines
136-177): timeout, exception, unparseable JSON, or a parsed dictionary with
optional `give_up`, `reason` and `new_todos` fields. -/
inductive ReplanResponse
  | llmTimeout
  | llmException (typeName : String)
  | parseFailure
  | parsed (give_up : Option Bool) (reason : Option String)
      (new_todos : Option (List RawTodo))
deriving DecidableEq, Repr

/-- The delta dictionary returned by `replanner_node`. -/
structure ReplanDelta where
  todo_list : List TodoItem
  retry_count : Nat
  error : Option String
  plan_reasoning : Option String
deriving DecidableEq, Repr

/-- The `for todo in todos: if todo.status == "pending": ... "failed"` loops
of `replanner_node` (replanner.py, lines 182-190 and 211-219): force every
pending todo to `failed` with the given error reason. -/
def fail_pending_todos (todos : List TodoItem) (reason : String) :
    List TodoItem :=
  todos.map (fun todo =>
    if todo.status = Status.pending then
      { todo with status := Status.failed, error := some reason }
    else todo)

/-- The todo built from one raw dictionary by the replanner's construction
loop (replanner.py, lines 200-206), given `n` = `len(new_todos) + 1` at
that point.  Unlike the planner's loop, `status` is taken from the parsed
dictionary when present and only defaults to `pending`. -/
def replanner_item (todo_data : RawTodo) (n : Nat) : TodoItem :=
  ⟨todo_data.id.getD ("step_" ++ toString n),
    todo_data.tool.getD "none",
    todo_data.description.getD "",
    todo_data.depends_on.getD [],
    todo_data.status.getD Status.pending, none, none⟩

/-- The todo-construction loop of `replanner_node` (replanner.py, lines
198-207). -/
def build_replanner_todos (raws : List RawTodo) : List TodoItem :=
  raws.foldl
    (fun new_todos todo_data =>
      new_todos ++ [replanner_item todo_data (new_todos.length + 1)])
    []

/-- `replanner_node` (replanner.py, lines 105-229) after the LLM call, as a
function of the current state and the parsed outcome.  All four return paths
increment `retry_count`; timeout/exception/parse-failure keep the old todo
list, give-up and an empty accepted list force pending todos to failed, and
a non-empty accepted list replaces the todo list wholesale. -/
def replanner_node (state : OrchestratorState) (resp : ReplanResponse) :
    ReplanDelta :=
  let todos := state.todo_list
  let retry_count := state.retry_count
  match resp with
  | .llmTimeout =>
    ⟨todos, retry_count + 1, some "Replanning LLM-Timeout nach 90s", none⟩
  | .llmException typeName =>
    ⟨todos, retry_count + 1, some ("Replanning LLM-Fehler: " ++ typeName), none⟩
  | .parseFailure =>
    ⟨todos, retry_count + 1, some "Replanning fehlgeschlagen", none⟩
  | .parsed give_up reason new_todos_raw =>
    if give_up.getD false then
      ⟨fail_pending_todos todos (reason.getD "Aufgabe nicht erfüllbar"),
        retry_count + 1, none, none⟩
    else
      let new_todos := build_replanner_todos (new_todos_raw.getD [])
      if new_todos.isEmpty then
        ⟨fail_pending_todos todos "Replanning konnte keinen neuen Plan erstellen",
          retry_count + 1, none, none⟩
      else
        ⟨new_todos, retry_count + 1, none, some (reason.getD "Plan angepasst")⟩

/-! ## Run controller (`src/orchestrator/graph.py`)

`create_orchestrator_graph` (graph.py, lines 212-281) wires the nodes with
three conditional-edge tables and two plain edges to `END`.  The tables are
Python dict lookups on the checker's decision string; they are embedded as
the corresponding if-chains.  `responder` and `clarify` both edge to `END`;
in the step function below they are absorbing (the run is over). -/

/-- The nodes of the LangGraph state graph (graph.py, lines 227-231). -/
inductive GraphNode
  | planner
  | executor
  | replanner
  | responder
  | clarify
deriving DecidableEq, Repr

/-- Conditional edges after `planner` (graph.py, lines 237-245). -/
def planner_edges (decision : String) : Option GraphNode :=
  if decision = "needs_clarify" then some GraphNode.clarify
  else if decision = "direct_response" then some GraphNode.responder
  else if decision = "has_pending" then some GraphNode.executor
  else none

/-- Conditional edges after `executor` (graph.py, lines 248-258). -/
def executor_edges (decision : String) : Option GraphNode :=
  if decision = "has_pending" then some GraphNode.executor
  else if decision = "needs_replan" then some GraphNode.replanner
  else if decision = "all_done" then some GraphNode.responder
  else if decision = "needs_clarify" then some GraphNode.clarify
  else if decision = "direct_response" then some GraphNode.responder
  else none

/-- Conditional edges after `replanner` (graph.py, lines 261-271).  Note:
`needs_replan` here routes to `responder` ("Immer noch kaputt: Aufgeben"),
not back to `replanner`. -/
def replanner_edges (decision : String) : Option GraphNode :=
  if decision = "has_pending" then some GraphNode.executor
  else if decision = "needs_replan" then some GraphNode.responder
  else if decision = "all_done" then some GraphNode.responder
  else if decision = "needs_clarify" then some GraphNode.clarify
  else if decision = "direct_response" then some GraphNode.responder
  else none

/-- LangGraph merge of a planner delta into the state: every returned key
replaces the state field (`current_step_index` is present only on the parsed
path). -/
def apply_planner_delta (s : OrchestratorState) (d : PlannerDelta) :
    OrchestratorState :=
  { s with
    todo_list := d.todo_list
    plan_reasoning := d.plan_reasoning
    needs_clarification := d.needs_clarification
    clarification_question := d.clarification_question
    error := if d.error.isSome then d.error else s.error
    current_step_index := d.current_step_index.getD s.current_step_index }

/-- LangGraph merge of an executor delta: `executed_steps` is annotated with
`operator.add` and appends; `todo_list` and `current_step_index` replace when
present. -/
def apply_exec_delta (s : OrchestratorState) (d : ExecDelta) :
    OrchestratorState :=
  { s with
    executed_steps := s.executed_steps ++ d.executed_steps
    todo_list := (d.todo_list).getD s.todo_list
    current_step_index := (d.current_step_index).getD s.current_step_index }

/-- LangGraph merge of a replanner delta: `todo_list` and `retry_count`
replace; `error` / `plan_reasoning` replace when present. -/
def apply_replan_delta (s : OrchestratorState) (d : ReplanDelta) :
    OrchestratorState :=
  { s with
    todo_list := d.todo_list
    retry_count := d.retry_count
    error := if d.error.isSome then d.error else s.error
    plan_reasoning := (d.plan_reasoning).getD s.plan_reasoning }

/-- One step's worth of (parsed) collaborator responses: whichever node runs
consumes the component addressed to it. -/
structure Oracle where
  plan : PlannerResponse
  tool : ToolResult
  replan : ReplanResponse

/-- One transition of the run controller: run the current node on the state
(with its oracle input), then follow the conditional edge selected by the
checker.  `responder` and `clarify` are absorbing (they edge to `END` in the
graph).  An edge-table miss cannot occur (the checkers only emit the five
mapped strings) and is absorbed into `responder` for totality. -/
def stepNode (st : GraphNode × OrchestratorState) (o : Oracle) :
    GraphNode × OrchestratorState :=
  match st with
  | (GraphNode.planner, s) =>
    let s' := apply_planner_delta s (planner_node o.plan)
    ((planner_edges (after_planner_check s')).getD GraphNode.responder, s')
  | (GraphNode.executor, s) =>
    let s' := apply_exec_delta s (executor_node s o.tool)
    ((executor_edges (check_todo_status s')).getD GraphNode.responder, s')
  | (GraphNode.replanner, s) =>
    let s' := apply_replan_delta s (replanner_node s o.replan)
    ((replanner_edges (check_todo_status s')).getD GraphNode.responder, s')
  | (GraphNode.responder, s) => (GraphNode.responder, s)
  | (GraphNode.clarify, s) => (GraphNode.clarify, s)

/-- The `initial_state` literal of `run_orchestrator` (graph.py, lines
411-426), restricted to the modelled fields. -/
def initState (user_message : String) : OrchestratorState :=
  ⟨user_message, [], 0, "", [], false, "", "", none, 0⟩

/-- The run after `n` controller steps, starting at the entry point
`planner` (graph.py, line 234), driven by the oracle stream `os`. -/
def runGraph (user_message : String) (os : Nat → Oracle) : Nat →
    GraphNode × OrchestratorState
  | 0 => (GraphNode.planner, initState user_message)
  | n + 1 => stepNode (runGraph user_message os n) (os n)

/-- A terminal phase: the run is in `respond` or `clarify`. -/
def isTerminal (node : GraphNode) : Prop :=
  node = GraphNode.responder ∨ node = GraphNode.clarify

instance (node : GraphNode) : Decidable (isTerminal node) := by
  unfold isTerminal; infer_instance

/-- How many of the first `n` controller steps ran the replanning
coordinator. -/
def replanCount (user_message : String) (os : Nat → Oracle) : Nat → Nat
  | 0 => 0
  | n + 1 =>
    replanCount user_message os n +
      (if (runGraph user_message os n).1 = GraphNode.replanner then 1 else 0)

/-! ## Specification-side definitions

These definitions are written from the wording of the claims (not from the
source); the refinement theorems below compare them with the embeddings
above. -/

/-- The readiness predicate as the spec words it: pending, and every
dependency has a successful execution record. -/
def ReadyTodo (steps : List ToolExecution) (todo : TodoItem) : Prop :=
  todo.status = Status.pending ∧
    ∀ dep ∈ todo.depends_on, ∃ r ∈ steps, r.success = true ∧ r.todo_id = dep

instance (steps : List ToolExecution) (todo : TodoItem) :
    Decidable (ReadyTodo steps todo) := by
  unfold ReadyTodo; infer_instance

/-- The decision procedure exactly as claim C2 words it, first match
winning: (1) clarification flag → `needs_clarify`; (2) empty list →
`direct_response`; (3) all done → `all_done`; (4) some failed → `all_done`
when the replanning counter is ≥ 2, else `needs_replan`; (5) a ready task
exists → `has_pending`; (6) otherwise `needs_replan`. -/
def check_todo_status_spec (state : OrchestratorState) : String :=
  if state.needs_clarification then "needs_clarify"
  else if state.todo_list = [] then "direct_response"
  else if ∀ t ∈ state.todo_list, t.status = Status.done then "all_done"
  else if ∃ t ∈ state.todo_list, t.status = Status.failed then
    if state.retry_count ≥ 2 then "all_done" else "needs_replan"
  else if ∃ t ∈ state.todo_list, ReadyTodo state.executed_steps t then
    "has_pending"
  else "needs_replan"

/-- The planner conditional-edge table as the (amended) controller claim
states it. -/
def planner_edges_spec (decision : String) : Option GraphNode :=
  if decision = "needs_clarify" then some GraphNode.clarify
  else if decision = "direct_response" then some GraphNode.responder
  else if decision = "has_pending" then some GraphNode.executor
  else none

/-- The executor conditional-edge table as the (amended) controller claim
states it: `has_pending` re-enters execute, `needs_replan` enters replan,
`all_done` / `direct_response` enter respond, `needs_clarify` enters
clarify, nothing else. -/
def executor_edges_spec (decision : String) : Option GraphNode :=
  if decision = "has_pending" then some GraphNode.executor
  else if decision = "needs_replan" then some GraphNode.replanner
  else if decision = "all_done" then some GraphNode.responder
  else if decision = "needs_clarify" then some GraphNode.clarify
  else if decision = "direct_response" then some GraphNode.responder
  else none

/-- The replanner conditional-edge table as the amended controller claim
states it: after the replan phase, `needs_replan` gives up and enters
respond (it does not re-enter replan); the other decisions route as after
execute. -/
def replanner_edges_spec (decision : String) : Option GraphNode :=
  if decision = "has_pending" then some GraphNode.executor
  else if decision = "needs_replan" then some GraphNode.responder
  else if decision = "all_done" then some GraphNode.responder
  else if decision = "needs_clarify" then some GraphNode.clarify
  else if decision = "direct_response" then some GraphNode.responder
  else none

/-- The node-indexed run invariant used for the bounded-replanning proof:
the clarification flag is cleared on the worker nodes, the replanner is only
ever entered with a replanning counter ≤ 1, and the executor is entered
without a ready task only with the counter still 0 (i.e. straight from the
planner). -/
def InvNode : GraphNode → OrchestratorState → Prop
  | GraphNode.planner, s => s.retry_count = 0
  | GraphNode.executor, s =>
    s.needs_clarification = false ∧
      (has_ready_todo s.todo_list s.executed_steps = false → s.retry_count = 0)
  | GraphNode.replanner, s =>
    s.needs_clarification = false ∧ s.retry_count ≤ 1
  | GraphNode.responder, _ => True
  | GraphNode.clarify, _ => True

/-- Termination measure for the run controller under always-failing tools. -/
def rankOf : GraphNode × OrchestratorState → Nat
  | (GraphNode.planner, _) => 7
  | (GraphNode.executor, s) => 2 * (2 - min s.retry_count 2) + 1
  | (GraphNode.replanner, s) => 2 * (2 - min s.retry_count 2)
  | (GraphNode.responder, _) => 0
  | (GraphNode.clarify, _) => 0

/-- An oracle step on which every collaborator fails (used to instantiate
the bounded-replanning theorem on a concrete run). -/
def oracleAllFail : Oracle :=
  ⟨PlannerResponse.llmTimeout, ⟨false, none, some "unreachable"⟩,
    ReplanResponse.llmTimeout⟩

/-! ## Helper lemmas -/

/-- A list has a member satisfying `p` exactly when the first-match scan
finds one. -/
theorem any_eq_find_isSome {α : Type} (l : List α) (p : α → Bool) :
    l.any p = (l.find? p).isSome := by
  induction l with
  | nil => rfl
  | cons x xs ih =>
    cases h : p x with
    | true => simp [List.any_cons, List.find?_cons_of_pos _ h, h]
    | false =>
      rw [List.find?_cons_of_neg _ (by simp [h])]
      simp [List.any_cons, h, ih]

/-- Membership in the completed-id set is existence of a successful record. -/
theorem mem_completed_iff (steps : List ToolExecution) (x : String) :
    x ∈ get_completed_step_ids steps ↔
      ∃ r ∈ steps, r.success = true ∧ r.todo_id = x := by
  simp only [get_completed_step_ids, List.mem_map, List.mem_filter]
  constructor
  · rintro ⟨r, ⟨hr, hs⟩, hid⟩
    exact ⟨r, hr, hs, hid⟩
  · rintro ⟨r, hr, hs, hid⟩
    exact ⟨r, ⟨hr, hs⟩, hid⟩

/-- The boolean scanned by the source's readiness loops decides `ReadyTodo`. -/
theorem ready_bool_iff (steps : List ToolExecution) (todo : TodoItem) :
    (decide (todo.status = Status.pending) &&
        todo.depends_on.all
          (fun dep_id => (get_completed_step_ids steps).contains dep_id)) = true ↔
      ReadyTodo steps todo := by
  simp [Bool.and_eq_true, List.all_eq_true, ReadyTodo, mem_completed_iff]

/-- `has_ready_todo` decides the existence of a ready todo. -/
theorem has_ready_iff (todos : List TodoItem) (steps : List ToolExecution) :
    has_ready_todo todos steps = true ↔ ∃ t ∈ todos, ReadyTodo steps t := by
  unfold has_ready_todo
  simp only [List.any_eq_true]
  constructor
  · rintro ⟨t, ht, hp⟩
    exact ⟨t, ht, (ready_bool_iff steps t).1 hp⟩
  · rintro ⟨t, ht, hp⟩
    exact ⟨t, ht, (ready_bool_iff steps t).2 hp⟩

/-! ## C9 — the two readiness embeddings agree -/

/-- C9: for every task list and execution log, the checker's boolean
`has_ready_todo` returns true exactly when the executor's selector
`get_next_ready_todo` returns a task — the two scans embed the same
readiness predicate.  (Both are Lean functions, hence deterministic pure
functions of their arguments by construction.) -/
theorem readiness_resolver_equivalence (todos : List TodoItem)
    (steps : List ToolExecution) :
    has_ready_todo todos steps = (get_next_ready_todo todos steps).isSome :=
  any_eq_find_isSome todos _

/-! ## C2 — transition-checker precedence -/

/-- C2: `check_todo_status` evaluates exactly the claimed precedence order:
clarification, empty list, all done, failed (with the ≥ 2 replanning
ceiling), ready task, deadlock. -/
theorem check_todo_status_precedence (state : OrchestratorState) :
    check_todo_status state = check_todo_status_spec state := by
  unfold check_todo_status check_todo_status_spec
  by_cases h1 : state.needs_clarification = true
  · rw [if_pos h1, if_pos h1]
  · rw [if_neg h1, if_neg h1]
    by_cases h2 : state.todo_list = []
    · rw [if_pos (by simp [h2]), if_pos h2]
    · rw [if_neg (by simpa [List.isEmpty_iff] using h2), if_neg h2]
      by_cases h3 : ∀ t ∈ state.todo_list, t.status = Status.done
      · rw [if_pos (by simpa [List.all_eq_true] using h3), if_pos h3]
      · rw [if_neg (by simpa [List.all_eq_true] using h3), if_neg h3]
        by_cases h4 : ∃ t ∈ state.todo_list, t.status = Status.failed
        · rw [if_pos (by simpa [List.any_eq_true] using h4), if_pos h4]
        · rw [if_neg (by simpa [List.any_eq_true] using h4), if_neg h4]
          by_cases h5 : ∃ t ∈ state.todo_list, ReadyTodo state.executed_steps t
          · rw [if_pos ((has_ready_iff _ _).2 h5), if_pos h5]
          · rw [if_neg (fun h => h5 ((has_ready_iff _ _).1 h)), if_neg h5]

/-! ## Helper lemmas about the construction loops -/

/-- Projections that ignore the positional id default commute with the
replanner's construction fold. -/
theorem build_replanner_foldl_map {β : Type} (g : TodoItem → β) (g0 : RawTodo → β)
    (hg : ∀ td n, g (replanner_item td n) = g0 td) :
    ∀ (raws : List RawTodo) (acc : List TodoItem),
      ((raws.foldl
          (fun new_todos todo_data =>
            new_todos ++ [replanner_item todo_data (new_todos.length + 1)])
          acc).map g) = acc.map g ++ raws.map g0 := by
  intro raws
  induction raws with
  | nil => intro acc; simp
  | cons r rs ih =>
    intro acc
    rw [List.foldl_cons, ih, List.map_append, List.map_cons]
    simp [hg]

/-- Projections that ignore the positional id default commute with the
planner's construction fold. -/
theorem build_planner_foldl_map {β : Type} (g : TodoItem → β) (g0 : RawTodo → β)
    (hg : ∀ td n, g (planner_item td n) = g0 td) :
    ∀ (raws : List RawTodo) (acc : List TodoItem),
      ((raws.foldl
          (fun todos todo_data => todos ++ [planner_item todo_data (todos.length + 1)])
          acc).map g) = acc.map g ++ raws.map g0 := by
  intro raws
  induction raws with
  | nil => intro acc; simp
  | cons r rs ih =>
    intro acc
    rw [List.foldl_cons, ih, List.map_append, List.map_cons]
    simp [hg]

/-- The statuses of the replanner's accepted list: the collaborator's status
when present, `pending` otherwise. -/
theorem build_replanner_statuses (raws : List RawTodo) :
    (build_replanner_todos raws).map (fun t => t.status) =
      raws.map (fun td => td.status.getD Status.pending) := by
  unfold build_replanner_todos
  simpa using
    build_replanner_foldl_map (fun t => t.status)
      (fun td => td.status.getD Status.pending) (fun _ _ => rfl) raws []

/-- The replanner's construction loop builds one todo per raw dictionary. -/
theorem build_replanner_length (raws : List RawTodo) :
    (build_replanner_todos raws).length = raws.length := by
  have h := build_replanner_foldl_map (fun _ => ()) (fun _ => ())
    (fun _ _ => rfl) raws []
  unfold build_replanner_todos
  have h1 : ((build_replanner_todos raws).map (fun _ => ())).length =
      (([] : List TodoItem).map (fun _ => ()) ++ raws.map (fun _ => ())).length := by
    unfold build_replanner_todos; rw [h]
  simpa using h1

/-- The pending-to-failed sweep, observed on the `(status, error)` pair of
every position. -/
theorem fail_pending_pair_map (todos : List TodoItem) (reason : String) :
    (fail_pending_todos todos reason).map (fun t => (t.status, t.error)) =
      todos.map (fun t =>
        if t.status = Status.pending then (Status.failed, some reason)
        else (t.status, t.error)) := by
  induction todos with
  | nil => rfl
  | cons t ts ih =>
    by_cases h : t.status = Status.pending <;>
      simp [fail_pending_todos, h] <;>
      simpa [fail_pending_todos] using ih

/-! ## C10 — collaborator failure leaves the plan untouched -/

/-- C10: when the replanner's LLM call times out or raises, the returned
delta keeps the task list exactly as it was, increments the retry counter by
one, and records a non-empty error string — the task list is atomically
unchanged, unlike on the give-up and empty-output branches. -/
theorem replanner_collaborator_failure_atomic (s : OrchestratorState)
    (typeName : String) :
    ((replanner_node s ReplanResponse.llmTimeout).todo_list = s.todo_list ∧
      (replanner_node s ReplanResponse.llmTimeout).retry_count =
        s.retry_count + 1 ∧
      ∃ e, (replanner_node s ReplanResponse.llmTimeout).error = some e ∧
        0 < e.length) ∧
    ((replanner_node s (ReplanResponse.llmException typeName)).todo_list =
        s.todo_list ∧
      (replanner_node s (ReplanResponse.llmException typeName)).retry_count =
        s.retry_count + 1 ∧
      ∃ e, (replanner_node s (ReplanResponse.llmException typeName)).error =
        some e ∧ 0 < e.length) := by
  refine ⟨⟨rfl, rfl, ⟨_, rfl, by decide⟩⟩, ⟨rfl, rfl, ⟨_, rfl, ?_⟩⟩⟩
  rw [String.length_append]
  have h : 0 < ("Replanning LLM-Fehler: ").length := by decide
  omega

/-! ## C3 — give-up / malformed / empty handling in the replanner -/

/-- C3 (counterexample): the claim states that malformed (unparseable)
collaborator output also transitions every pending task to `failed`.  It
does not: on a JSON parse failure the replanner returns the old task list
unchanged, so a pending task stays pending. -/
theorem replanner_malformed_counterexample :
    (replanner_node
        ⟨"", [⟨"step_1", "T", "d", [], Status.pending, none, none⟩], 0, "",
          [], false, "", "", none, 0⟩
        ReplanResponse.parseFailure).todo_list =
      [⟨"step_1", "T", "d", [], Status.pending, none, none⟩] ∧
    Status.pending ≠ Status.failed := by
  exact ⟨rfl, by decide⟩

/-- C3 (amended): on a give-up signal, and on an accepted-but-empty
replacement list, every pending task is transitioned to `failed` with the
reason recorded on the task (and the retry counter incremented); on
malformed (unparseable) output, however, the task list is returned
unchanged — pending tasks stay pending — and the error is recorded in the
delta's `error` field instead. -/
theorem replanner_forced_failure_paths (s : OrchestratorState)
    (reason : String) (raws : Option (List RawTodo)) :
    (((replanner_node s (ReplanResponse.parsed (some true) (some reason) raws)).todo_list.map
        (fun t => (t.status, t.error)) =
      s.todo_list.map (fun t =>
        if t.status = Status.pending then (Status.failed, some reason)
        else (t.status, t.error))) ∧
      (replanner_node s (ReplanResponse.parsed (some true) (some reason) raws)).retry_count =
        s.retry_count + 1) ∧
    ((replanner_node s (ReplanResponse.parsed (some true) none raws)).todo_list.map
        (fun t => (t.status, t.error)) =
      s.todo_list.map (fun t =>
        if t.status = Status.pending then
          (Status.failed, some "Aufgabe nicht erfüllbar")
        else (t.status, t.error))) ∧
    (((replanner_node s (ReplanResponse.parsed (some false) (some reason) (some []))).todo_list.map
        (fun t => (t.status, t.error)) =
      s.todo_list.map (fun t =>
        if t.status = Status.pending then
          (Status.failed, some "Replanning konnte keinen neuen Plan erstellen")
        else (t.status, t.error))) ∧
      ((replanner_node s (ReplanResponse.parsed none none none)).todo_list.map
          (fun t => (t.status, t.error)) =
        s.todo_list.map (fun t =>
          if t.status = Status.pending then
            (Status.failed, some "Replanning konnte keinen neuen Plan erstellen")
          else (t.status, t.error)))) ∧
    ((replanner_node s ReplanResponse.parseFailure).todo_list = s.todo_list ∧
      (replanner_node s ReplanResponse.parseFailure).error =
        some "Replanning fehlgeschlagen" ∧
      (replanner_node s ReplanResponse.parseFailure).retry_count =
        s.retry_count + 1) := by
  refine ⟨⟨?_, rfl⟩, ?_, ⟨?_, ?_⟩, rfl, rfl, rfl⟩
  · exact fail_pending_pair_map s.todo_list reason
  · exact fail_pending_pair_map s.todo_list _
  · exact fail_pending_pair_map s.todo_list _
  · exact fail_pending_pair_map s.todo_list _

/-! ## C7 — replacement-list statuses are not forced to pending -/

/-- C7 (counterexample): the claim states that every task in an accepted
replacement list has initial status `pending` regardless of the
collaborator's output.  It does not: the replanner takes the collaborator's
`status` field verbatim (`todo_data.get("status", "pending")`), so a
replacement task arriving with status `done` is installed as `done`. -/
theorem replanner_status_counterexample :
    ((replanner_node
        ⟨"", [], 0, "", [], false, "", "", none, 0⟩
        (ReplanResponse.parsed (some false) none
          (some [⟨some "step_1", some "T", some "d", some [],
            some Status.done⟩]))).todo_list.map (fun t => t.status)) =
      [Status.done] ∧
    Status.done ≠ Status.pending := by
  exact ⟨rfl, by decide⟩

/-- C7 (amended): in the accepted (non-give-up, non-empty) case the
replanner installs each task with the status given by the collaborator,
defaulting to `pending` only when the collaborator omits the field. -/
theorem replanner_status_passthrough (s : OrchestratorState)
    (reason : Option String) (a : RawTodo) (rest : List RawTodo) :
    ((replanner_node s
        (ReplanResponse.parsed (some false) reason (some (a :: rest)))).todo_list.map
        (fun t => t.status) =
      (a :: rest).map (fun td => td.status.getD Status.pending)) ∧
    ((replanner_node s
        (ReplanResponse.parsed none reason (some (a :: rest)))).todo_list.map
        (fun t => t.status) =
      (a :: rest).map (fun td => td.status.getD Status.pending)) := by
  have hlen : (build_replanner_todos (a :: rest)).length = rest.length + 1 := by
    rw [build_replanner_length]; rfl
  have hne : (build_replanner_todos (a :: rest)).isEmpty = false := by
    cases h : build_replanner_todos (a :: rest) with
    | nil => rw [h] at hlen; simp at hlen
    | cons x xs => rfl
  constructor <;>
    simp [replanner_node, hne, build_replanner_statuses]

/-! ## C5 — run-controller transition table -/

/-- C5 (counterexample): the claim states that whenever the transition
checker reports `needs_replan` — after the execute phase or after the
replan phase — the next phase is replan.  After the replan phase it is not:
the conditional edge routes `needs_replan` to the responder (give up). -/
theorem run_controller_counterexample :
    replanner_edges "needs_replan" = some GraphNode.responder ∧
    some GraphNode.responder ≠ some GraphNode.replanner := by
  exact ⟨rfl, by decide⟩

/-- C5 (amended): the controller's transitions are exactly the claimed
table, except that `needs_replan` reported after the replan phase enters
respond (giving up) rather than re-entering replan.  `has_pending`
re-enters execute, `all_done` and `direct_response` enter respond,
`needs_clarify` enters clarify; respond and clarify are terminal; and the
checkers only ever emit the five mapped decisions, so no other transitions
exist. -/
theorem run_controller_transitions :
    (∀ d, planner_edges d = planner_edges_spec d) ∧
    (∀ d, executor_edges d = executor_edges_spec d) ∧
    (∀ d, replanner_edges d = replanner_edges_spec d) ∧
    (∀ s o, stepNode (GraphNode.responder, s) o = (GraphNode.responder, s)) ∧
    (∀ s o, stepNode (GraphNode.clarify, s) o = (GraphNode.clarify, s)) ∧
    (∀ s, check_todo_status s = "needs_clarify" ∨
      check_todo_status s = "direct_response" ∨
      check_todo_status s = "all_done" ∨
      check_todo_status s = "needs_replan" ∨
      check_todo_status s = "has_pending") ∧
    (∀ s, after_planner_check s = "needs_clarify" ∨
      after_planner_check s = "direct_response" ∨
      after_planner_check s = "has_pending") := by
  refine ⟨fun d => rfl, fun d => rfl, fun d => rfl, fun s o => rfl,
    fun s o => rfl, fun s => ?_, fun s => ?_⟩
  · unfold check_todo_status
    by_cases h1 : s.needs_clarification = true <;>
      by_cases h2 : s.todo_list.isEmpty = true <;>
      by_cases h3 : s.todo_list.all (fun t => decide (t.status = Status.done)) = true <;>
      by_cases h4 : s.todo_list.any (fun t => decide (t.status = Status.failed)) = true <;>
      by_cases h5 : s.retry_count ≥ 2 <;>
      by_cases h6 : has_ready_todo s.todo_list s.executed_steps = true <;>
      simp [h1, h2, h3, h4, h5, h6]
  · unfold after_planner_check
    by_cases h1 : s.needs_clarification = true <;>
      by_cases h2 : s.todo_list.isEmpty = true <;>
      simp [h1, h2]

/-! ## C1 — readiness soundness -/

/-- C1 (counterexample): over arbitrary task lists and execution logs the
claim fails: `get_next_ready_todo` selects on the `status` field and on the
log, but never cross-checks the two, so a task that is still `pending` in
the list is returned even though its own id already appears in the log with
`success = true`. -/
theorem readiness_soundness_counterexample :
    get_next_ready_todo
        [⟨"a", "T", "d", [], Status.pending, none, none⟩]
        [⟨"a", "T", "ctx", none, true, none⟩] =
      some ⟨"a", "T", "d", [], Status.pending, none, none⟩ ∧
    (⟨"a", "T", "ctx", none, true, none⟩ : ToolExecution).success = true ∧
    (⟨"a", "T", "ctx", none, true, none⟩ : ToolExecution).todo_id =
      (⟨"a", "T", "d", [], Status.pending, none, none⟩ : TodoItem).id := by
  exact ⟨by decide, rfl, rfl⟩

/-- C1 (amended): the resolver unconditionally returns only pending tasks
whose every dependency has a `success = true` record.  On state consistent
with the log — no failed task's id has a successful record, and no task
with a successful record is still pending (both hold in every reachable
run state) — it therefore never returns a task with a failed dependency
and never returns a task whose own id appears in the log with
`success = true`. -/
theorem readiness_soundness (todos : List TodoItem)
    (steps : List ToolExecution) (todo : TodoItem)
    (hfind : get_next_ready_todo todos steps = some todo)
    (hfailed_consistent : ∀ t ∈ todos, t.status = Status.failed →
      ∀ r ∈ steps, r.success = true → r.todo_id ≠ t.id)
    (hpending_consistent : ∀ t ∈ todos, t.status = Status.pending →
      ∀ r ∈ steps, r.success = true → r.todo_id ≠ t.id) :
    todo.status = Status.pending ∧
    (∀ dep ∈ todo.depends_on, ∃ r ∈ steps, r.success = true ∧ r.todo_id = dep) ∧
    (∀ dep ∈ todo.depends_on, ∀ t ∈ todos, t.id = dep →
      t.status ≠ Status.failed) ∧
    (∀ r ∈ steps, r.success = true → r.todo_id ≠ todo.id) := by
  unfold get_next_ready_todo at hfind
  have hp := List.find?_some hfind
  have hmem := List.mem_of_find?_eq_some hfind
  obtain ⟨hpend, hdeps⟩ := (ready_bool_iff steps todo).1 hp
  refine ⟨hpend, hdeps, ?_, ?_⟩
  · intro dep hdep t ht hid hfailed
    obtain ⟨r, hr, hsucc, hrid⟩ := hdeps dep hdep
    exact hfailed_consistent t ht hfailed r hr hsucc (by rw [hrid, hid])
  · intro r hr hsucc
    exact hpending_consistent todo hmem hpend r hr hsucc

/-- Concrete instantiation of the readiness-soundness theorem on a
one-task, empty-log state. -/
theorem readiness_soundness_witness :
    (⟨"a", "T", "d", [], Status.pending, none, none⟩ : TodoItem).status =
      Status.pending :=
  (readiness_soundness [⟨"a", "T", "d", [], Status.pending, none, none⟩] []
    ⟨"a", "T", "d", [], Status.pending, none, none⟩ (by decide) (by decide)
    (by decide)).1

/-! ## C6 — frame property of one execution cycle -/

/-- C6 (counterexample): with duplicate ids in the task list (which nothing
rejects, see C8) one cycle changes the status of more than just the
selected task: `update_todo_status` rewrites every todo whose id matches,
so the non-selected second task also flips to `failed`. -/
theorem execution_cycle_counterexample :
    get_next_ready_todo
        [⟨"a", "T", "d", [], Status.pending, none, none⟩,
          ⟨"a", "T", "e", [], Status.running, none, none⟩] [] =
      some ⟨"a", "T", "d", [], Status.pending, none, none⟩ ∧
    some (⟨"a", "T", "e", [], Status.running, none, none⟩ : TodoItem) ≠
      get_next_ready_todo
        [⟨"a", "T", "d", [], Status.pending, none, none⟩,
          ⟨"a", "T", "e", [], Status.running, none, none⟩] [] ∧
    ((executor_node
        ⟨"", [⟨"a", "T", "d", [], Status.pending, none, none⟩,
          ⟨"a", "T", "e", [], Status.running, none, none⟩], 0, "", [], false,
          "", "", none, 0⟩
        ⟨false, none, some "boom"⟩).todo_list.getD []).map
        (fun t => t.status) =
      [Status.failed, Status.failed] ∧
    Status.running ≠ Status.failed := by
  exact ⟨by decide, by decide, by decide, by decide⟩

/-- C6 (amended): one execution cycle with no ready task returns the empty
delta.  Otherwise it appends exactly one execution record (for the selected
task, with the tool outcome's success flag), replaces the task list with one
of the same length in which every todo whose id differs from the selected id
is exactly unchanged and every todo carrying the selected id gets status
`done` on success / `failed` on failure; when ids are unique (the data-model
invariant), the task whose status changes is therefore exactly the selected
one. -/
theorem execution_cycle_frame (s : OrchestratorState) (tr : ToolResult) :
    (get_next_ready_todo s.todo_list s.executed_steps = none →
      executor_node s tr = ⟨[], none, none⟩) ∧
    (∀ todo, get_next_ready_todo s.todo_list s.executed_steps = some todo →
      ((executor_node s tr).executed_steps.map
          (fun e => (e.todo_id, e.success)) = [(todo.id, tr.success)]) ∧
      ∃ todos2, (executor_node s tr).todo_list = some todos2 ∧
        todos2.length = s.todo_list.length ∧
        (∀ i, ∀ h1 : i < s.todo_list.length, ∀ h2 : i < todos2.length,
          (s.todo_list[i].id ≠ todo.id → todos2[i] = s.todo_list[i]) ∧
          (s.todo_list[i].id = todo.id →
            todos2[i].status =
              (if tr.success then Status.done else Status.failed))) ∧
        ((s.todo_list.map (fun t => t.id)).Nodup →
          ∀ i, ∀ h1 : i < s.todo_list.length, ∀ h2 : i < todos2.length,
            (¬ todos2[i].status = s.todo_list[i].status ↔
              s.todo_list[i] = todo))) := by
  constructor
  · intro h
    simp [executor_node, h]
  · intro todo hfind
    have hp0 := hfind
    simp only [get_next_ready_todo] at hp0
    have hp1 := List.find?_some hp0
    have hpend : todo.status = Status.pending :=
      ((ready_bool_iff s.executed_steps todo).1 hp1).1
    have hmem : todo ∈ s.todo_list := List.mem_of_find?_eq_some hp0
    simp only [executor_node, hfind]
    refine ⟨rfl, _, rfl, ?_, ?_, ?_⟩
    · simp [update_todo_status]
    · intro i h1 h2
      constructor
      · intro hne
        simp only [update_todo_status, List.getElem_map]
        simp [hne]
      · intro heq
        simp only [update_todo_status, List.getElem_map]
        simp [heq]
    · intro hnodup i h1 h2
      constructor
      · intro hdiff
        by_cases hid : s.todo_list[i].id = todo.id
        · obtain ⟨j, hj, hjeq⟩ := List.mem_iff_getElem.1 hmem
          have hmi : i < (s.todo_list.map (fun t => t.id)).length := by
            simpa using h1
          have hmj : j < (s.todo_list.map (fun t => t.id)).length := by
            simpa using hj
          have heqids : (s.todo_list.map (fun t => t.id))[i] =
              (s.todo_list.map (fun t => t.id))[j] := by
            rw [List.getElem_map, List.getElem_map, hjeq, hid]
          have hij : i = j := hnodup.getElem_inj_iff.mp heqids
          subst hij
          exact hjeq
        · exfalso
          apply hdiff
          simp only [update_todo_status, List.getElem_map]
          simp [hid]
      · intro heqtodo
        have hid : s.todo_list[i].id = todo.id := by rw [heqtodo]
        have hstat : s.todo_list[i].status = Status.pending := by
          rw [heqtodo]; exact hpend
        have hns : (if tr.success then Status.done else Status.failed) ≠
            Status.pending := by
          cases tr.success <;> decide
        simp only [update_todo_status, List.getElem_map]
        simp [hid, hstat, hns]

/-- Concrete instantiation of the execution-cycle frame theorem: the single
appended record names the selected task and carries the failure flag. -/
theorem execution_cycle_frame_witness :
    (executor_node
        ⟨"", [⟨"a", "T", "d", [], Status.pending, none, none⟩], 0, "", [],
          false, "", "", none, 0⟩
        ⟨false, none, some "boom"⟩).executed_steps.map
        (fun e => (e.todo_id, e.success)) = [("a", false)] :=
  ((execution_cycle_frame
      ⟨"", [⟨"a", "T", "d", [], Status.pending, none, none⟩], 0, "", [],
        false, "", "", none, 0⟩
      ⟨false, none, some "boom"⟩).2
    ⟨"a", "T", "d", [], Status.pending, none, none⟩ (by decide)).1

/-! ## C8 — no structural validation of proposed task lists -/

/-- C8 (counterexample): the claim states that a proposed list with
duplicate ids or a `depends_on` entry naming an absent id is rejected and
never installed.  It is not: the planner installs such a list verbatim (and
the controller merges the delta into the state as the current task list). -/
theorem structural_validation_counterexample :
    (planner_node (PlannerResponse.parsed
        (some [⟨some "a", some "T", some "d", some ["zzz"], none⟩,
          ⟨some "a", some "T", some "e", none, none⟩]) none none none)).todo_list =
      [⟨"a", "T", "d", ["zzz"], Status.pending, none, none⟩,
        ⟨"a", "T", "e", [], Status.pending, none, none⟩] ∧
    (apply_planner_delta (initState "m")
        (planner_node (PlannerResponse.parsed
          (some [⟨some "a", some "T", some "d", some ["zzz"], none⟩,
            ⟨some "a", some "T", some "e", none, none⟩]) none none none))).todo_list =
      [⟨"a", "T", "d", ["zzz"], Status.pending, none, none⟩,
        ⟨"a", "T", "e", [], Status.pending, none, none⟩] ∧
    ¬ ([⟨"a", "T", "d", ["zzz"], Status.pending, none, none⟩,
        ⟨"a", "T", "e", [], Status.pending, none, none⟩].map
          (fun t : TodoItem => t.id)).Nodup ∧
    ¬ ("zzz" ∈ [⟨"a", "T", "d", ["zzz"], Status.pending, none, none⟩,
        ⟨"a", "T", "e", [], Status.pending, none, none⟩].map
          (fun t : TodoItem => t.id)) := by
  exact ⟨by decide, by decide, by decide, by decide⟩

/-- C8 (amended): no structural validation is performed.  The planner
installs any proposed list verbatim (statuses forced to `pending`), the
replanner installs any accepted list verbatim (statuses as given), duplicate
ids and dangling `depends_on` entries included; a list whose pending tasks
all have an unsatisfiable dependency is handled only at runtime, where the
checker reports the deadlock as `needs_replan`. -/
theorem structural_validation_absent :
    (∀ (raws : List RawTodo) (rsn : Option String) (nc : Option Bool)
        (q : Option String),
      (planner_node (PlannerResponse.parsed (some raws) rsn nc q)).todo_list.map
          (fun t => (t.tool, t.description, t.depends_on, t.status)) =
        raws.map (fun td =>
          (td.tool.getD "none", td.description.getD "", td.depends_on.getD [],
            Status.pending))) ∧
    (∀ (s : OrchestratorState) (reason : Option String) (a : RawTodo)
        (rest : List RawTodo),
      (replanner_node s
          (ReplanResponse.parsed (some false) reason (some (a :: rest)))).todo_list.map
          (fun t => (t.tool, t.description, t.depends_on, t.status)) =
        (a :: rest).map (fun td =>
          (td.tool.getD "none", td.description.getD "", td.depends_on.getD [],
            td.status.getD Status.pending))) ∧
    (∀ s : OrchestratorState, s.needs_clarification = false →
      s.todo_list ≠ [] →
      (∀ t ∈ s.todo_list, t.status = Status.pending) →
      (∀ t ∈ s.todo_list, ∃ dep ∈ t.depends_on,
        ∀ r ∈ s.executed_steps, r.success = true → r.todo_id ≠ dep) →
      check_todo_status s = "needs_replan") := by
  refine ⟨?_, ?_, ?_⟩
  · intro raws rsn nc q
    simp only [planner_node, build_planner_todos]
    simpa using
      build_planner_foldl_map
        (fun t => (t.tool, t.description, t.depends_on, t.status))
        (fun td =>
          (td.tool.getD "none", td.description.getD "", td.depends_on.getD [],
            Status.pending))
        (fun _ _ => rfl) raws []
  · intro s reason a rest
    have hlen : (build_replanner_todos (a :: rest)).length = rest.length + 1 := by
      rw [build_replanner_length]; rfl
    have hne : (build_replanner_todos (a :: rest)).isEmpty = false := by
      cases h : build_replanner_todos (a :: rest) with
      | nil => rw [h] at hlen; simp at hlen
      | cons x xs => rfl
    have hstep : replanner_node s
        (ReplanResponse.parsed (some false) reason (some (a :: rest))) =
        ⟨build_replanner_todos (a :: rest), s.retry_count + 1, none,
          some (reason.getD "Plan angepasst")⟩ := by
      simp [replanner_node, hne]
    rw [hstep]
    show (build_replanner_todos (a :: rest)).map _ = _
    unfold build_replanner_todos
    simpa using
      build_replanner_foldl_map
        (fun t => (t.tool, t.description, t.depends_on, t.status))
        (fun td =>
          (td.tool.getD "none", td.description.getD "", td.depends_on.getD [],
            td.status.getD Status.pending))
        (fun _ _ => rfl) (a :: rest) []
  · intro s hflag hne hallpend hdangling
    obtain ⟨t0, ht0⟩ := List.exists_mem_of_ne_nil s.todo_list hne
    unfold check_todo_status
    rw [if_neg (by simp [hflag])]
    rw [if_neg (by simpa [List.isEmpty_iff] using hne)]
    rw [if_neg ?_]
    rw [if_neg ?_]
    rw [if_neg ?_]
    · intro hready
      obtain ⟨t, ht, hpend, hdeps⟩ := (has_ready_iff _ _).1 hready
      obtain ⟨dep, hdep, hnone⟩ := hdangling t ht
      obtain ⟨r, hr, hsucc, hrid⟩ := hdeps dep hdep
      exact hnone r hr hsucc hrid
    · intro hfail
      obtain ⟨t, ht, hts⟩ := List.any_eq_true.1 hfail
      have := hallpend t ht
      simp only [decide_eq_true_eq] at hts
      rw [this] at hts
      exact absurd hts (by decide)
    · intro hall
      have h1 := List.all_eq_true.1 hall t0 ht0
      have h2 := hallpend t0 ht0
      simp only [decide_eq_true_eq] at h1
      rw [h2] at h1
      exact absurd h1 (by decide)

/-- Concrete instantiation of the runtime-deadlock part of the structural
claim: a task list whose only task depends on an id with no successful
record yields `needs_replan`, not a rejection. -/
theorem structural_validation_witness :
    check_todo_status
        ⟨"", [⟨"a", "T", "d", ["zzz"], Status.pending, none, none⟩], 0, "",
          [], false, "", "", none, 0⟩ = "needs_replan" :=
  structural_validation_absent.2.2
    ⟨"", [⟨"a", "T", "d", ["zzz"], Status.pending, none, none⟩], 0, "", [],
      false, "", "", none, 0⟩
    rfl (by decide) (by decide) (by decide)

/-! ## Helper lemmas for the bounded-replanning proof (C4) -/

theorem bool_eq_false_of_not {b : Bool} (h : ¬ b = true) : b = false := by
  cases b with
  | false => rfl
  | true => exact absurd rfl h

/-- Shared form of the readiness-equivalence fact (also the content of the
C9 theorem): the checker's boolean is the selector's `isSome`. -/
theorem has_ready_eq_isSome (todos : List TodoItem)
    (steps : List ToolExecution) :
    has_ready_todo todos steps = (get_next_ready_todo todos steps).isSome :=
  any_eq_find_isSome todos _

/-- Every return path of the replanner increments the retry counter by one. -/
theorem replanner_retry (s : OrchestratorState) (r : ReplanResponse) :
    (replanner_node s r).retry_count = s.retry_count + 1 := by
  cases r with
  | llmTimeout => rfl
  | llmException t => rfl
  | parseFailure => rfl
  | parsed gu reason raws =>
    simp only [replanner_node]
    split
    · rfl
    · split
      · rfl
      · rfl

/-- With no ready todo the executor's delta merges to the identity. -/
theorem exec_delta_none (s : OrchestratorState) (tr : ToolResult)
    (h : get_next_ready_todo s.todo_list s.executed_steps = none) :
    apply_exec_delta s (executor_node s tr) = s := by
  simp [executor_node, h, apply_exec_delta]

/-- When a todo is selected and the tool fails, the merged state's task list
contains a failed todo (the selected one). -/
theorem exec_ran_any_failed (s : OrchestratorState) (tr : ToolResult)
    (todo : TodoItem)
    (hfind : get_next_ready_todo s.todo_list s.executed_steps = some todo)
    (hfail : tr.success = false) :
    (apply_exec_delta s (executor_node s tr)).todo_list.any
      (fun t => decide (t.status = Status.failed)) = true := by
  have hfind' := hfind
  simp only [get_next_ready_todo] at hfind'
  have hmem : todo ∈ s.todo_list := List.mem_of_find?_eq_some hfind'
  simp only [executor_node, hfind, apply_exec_delta, Option.getD_some]
  refine List.any_eq_true.2 ?_
  simp only [update_todo_status]
  exact ⟨_, List.mem_map.2 ⟨_, List.mem_map.2 ⟨todo, hmem, rfl⟩, rfl⟩,
    by simp [hfail]⟩

/-- Exhaustive case analysis of the transition checker, with the facts each
branch implies. -/
theorem check_cases (s : OrchestratorState) :
    check_todo_status s = "needs_clarify" ∨
    check_todo_status s = "direct_response" ∨
    check_todo_status s = "all_done" ∨
    (check_todo_status s = "needs_replan" ∧ ¬ s.needs_clarification = true ∧
      s.todo_list.any (fun t => decide (t.status = Status.failed)) = true ∧
      ¬ s.retry_count ≥ 2) ∨
    (check_todo_status s = "needs_replan" ∧ ¬ s.needs_clarification = true ∧
      ¬ s.todo_list.any (fun t => decide (t.status = Status.failed)) = true ∧
      ¬ has_ready_todo s.todo_list s.executed_steps = true) ∨
    (check_todo_status s = "has_pending" ∧ ¬ s.needs_clarification = true ∧
      ¬ s.todo_list.any (fun t => decide (t.status = Status.failed)) = true ∧
      has_ready_todo s.todo_list s.executed_steps = true) := by
  unfold check_todo_status
  by_cases h1 : s.needs_clarification = true <;>
    by_cases h2 : s.todo_list.isEmpty = true <;>
    by_cases h3 : s.todo_list.all (fun t => decide (t.status = Status.done)) = true <;>
    by_cases h4 : s.todo_list.any (fun t => decide (t.status = Status.failed)) = true <;>
    by_cases h5 : s.retry_count ≥ 2 <;>
    by_cases h6 : has_ready_todo s.todo_list s.executed_steps = true <;>
    simp [h1, h2, h3, h4, h5, h6]

/-- Exhaustive case analysis of the after-planner check. -/
theorem after_planner_cases (s : OrchestratorState) :
    after_planner_check s = "needs_clarify" ∨
    after_planner_check s = "direct_response" ∨
    (after_planner_check s = "has_pending" ∧ ¬ s.needs_clarification = true) := by
  unfold after_planner_check
  by_cases h1 : s.needs_clarification = true <;>
    by_cases h2 : s.todo_list.isEmpty = true <;> simp [h1, h2]

theorem stepNode_planner_eq (s : OrchestratorState) (o : Oracle) :
    stepNode (GraphNode.planner, s) o =
      ((planner_edges
          (after_planner_check (apply_planner_delta s (planner_node o.plan)))).getD
        GraphNode.responder,
        apply_planner_delta s (planner_node o.plan)) := rfl

theorem stepNode_executor_eq (s : OrchestratorState) (o : Oracle) :
    stepNode (GraphNode.executor, s) o =
      ((executor_edges
          (check_todo_status (apply_exec_delta s (executor_node s o.tool)))).getD
        GraphNode.responder,
        apply_exec_delta s (executor_node s o.tool)) := rfl

theorem stepNode_replanner_eq (s : OrchestratorState) (o : Oracle) :
    stepNode (GraphNode.replanner, s) o =
      ((replanner_edges
          (check_todo_status (apply_replan_delta s (replanner_node s o.replan)))).getD
        GraphNode.responder,
        apply_replan_delta s (replanner_node s o.replan)) := rfl

/-- One controller step under a failing tool oracle preserves the run
invariant, adjusts the retry counter exactly on replanner steps, strictly
decreases the termination measure on non-terminal nodes, and is the
identity on terminal nodes. -/
theorem stepNode_preserves (node : GraphNode) (s : OrchestratorState)
    (o : Oracle) (hfail : o.tool.success = false) (hinv : InvNode node s) :
    InvNode (stepNode (node, s) o).1 (stepNode (node, s) o).2 ∧
    (stepNode (node, s) o).2.retry_count =
      s.retry_count + (if node = GraphNode.replanner then 1 else 0) ∧
    (¬ isTerminal node → rankOf (stepNode (node, s) o) < rankOf (node, s)) ∧
    (isTerminal node → stepNode (node, s) o = (node, s)) := by
  cases node with
  | planner =>
    have hretry0 : s.retry_count = 0 := hinv
    rw [stepNode_planner_eq]
    rcases after_planner_cases (apply_planner_delta s (planner_node o.plan)) with
      hd | hd | ⟨hd, hfa⟩
    · rw [hd]
      refine ⟨trivial, rfl, ?_, fun h => absurd h (by decide)⟩
      intro _
      show rankOf (GraphNode.clarify, apply_planner_delta s (planner_node o.plan)) <
        rankOf (GraphNode.planner, s)
      simp only [rankOf]
      omega
    · rw [hd]
      refine ⟨trivial, rfl, ?_, fun h => absurd h (by decide)⟩
      intro _
      show rankOf (GraphNode.responder, apply_planner_delta s (planner_node o.plan)) <
        rankOf (GraphNode.planner, s)
      simp only [rankOf]
      omega
    · rw [hd]
      refine ⟨⟨bool_eq_false_of_not hfa, fun _ => hretry0⟩, rfl, ?_,
        fun h => absurd h (by decide)⟩
      intro _
      show rankOf (GraphNode.executor, apply_planner_delta s (planner_node o.plan)) <
        rankOf (GraphNode.planner, s)
      simp only [rankOf]
      have h0 : (apply_planner_delta s (planner_node o.plan)).retry_count = 0 :=
        hretry0
      rw [h0]
      omega
  | executor =>
    obtain ⟨hflag, himp⟩ := hinv
    rw [stepNode_executor_eq]
    cases hx : get_next_ready_todo s.todo_list s.executed_steps with
    | none =>
      have hid : apply_exec_delta s (executor_node s o.tool) = s :=
        exec_delta_none s o.tool hx
      rw [hid]
      have hready : has_ready_todo s.todo_list s.executed_steps = false := by
        rw [has_ready_eq_isSome, hx]; rfl
      have hretry0 : s.retry_count = 0 := himp hready
      rcases check_cases s with hd | hd | hd | ⟨hd, hfa, hany, hlt⟩ |
        ⟨hd, hfa, hany, hnr⟩ | ⟨hd, hfa, hany, hrdy⟩
      · rw [hd]
        refine ⟨trivial, rfl, ?_, fun h => absurd h (by decide)⟩
        intro _
        show rankOf (GraphNode.clarify, s) < rankOf (GraphNode.executor, s)
        simp only [rankOf]
        omega
      · rw [hd]
        refine ⟨trivial, rfl, ?_, fun h => absurd h (by decide)⟩
        intro _
        show rankOf (GraphNode.responder, s) < rankOf (GraphNode.executor, s)
        simp only [rankOf]
        omega
      · rw [hd]
        refine ⟨trivial, rfl, ?_, fun h => absurd h (by decide)⟩
        intro _
        show rankOf (GraphNode.responder, s) < rankOf (GraphNode.executor, s)
        simp only [rankOf]
        omega
      · rw [hd]
        refine ⟨⟨bool_eq_false_of_not hfa, ?_⟩, rfl, ?_,
          fun h => absurd h (by decide)⟩
        · show s.retry_count ≤ 1
          omega
        · intro _
          show rankOf (GraphNode.replanner, s) < rankOf (GraphNode.executor, s)
          simp only [rankOf]
          omega
      · rw [hd]
        refine ⟨⟨bool_eq_false_of_not hfa, ?_⟩, rfl, ?_,
          fun h => absurd h (by decide)⟩
        · show s.retry_count ≤ 1
          omega
        · intro _
          show rankOf (GraphNode.replanner, s) < rankOf (GraphNode.executor, s)
          simp only [rankOf]
          omega
      · rw [hready] at hrdy
        exact absurd hrdy (by decide)
    | some todo =>
      have hany' : (apply_exec_delta s (executor_node s o.tool)).todo_list.any
          (fun t => decide (t.status = Status.failed)) = true :=
        exec_ran_any_failed s o.tool todo hx hfail
      have hretry' : (apply_exec_delta s (executor_node s o.tool)).retry_count =
        s.retry_count := rfl
      rcases check_cases (apply_exec_delta s (executor_node s o.tool)) with
        hd | hd | hd | ⟨hd, hfa, hany, hlt⟩ | ⟨hd, hfa, hany, hnr⟩ |
        ⟨hd, hfa, hany, hrdy⟩
      · rw [hd]
        refine ⟨trivial, hretry', ?_, fun h => absurd h (by decide)⟩
        intro _
        show rankOf (GraphNode.clarify, apply_exec_delta s (executor_node s o.tool)) <
          rankOf (GraphNode.executor, s)
        simp only [rankOf]
        omega
      · rw [hd]
        refine ⟨trivial, hretry', ?_, fun h => absurd h (by decide)⟩
        intro _
        show rankOf (GraphNode.responder, apply_exec_delta s (executor_node s o.tool)) <
          rankOf (GraphNode.executor, s)
        simp only [rankOf]
        omega
      · rw [hd]
        refine ⟨trivial, hretry', ?_, fun h => absurd h (by decide)⟩
        intro _
        show rankOf (GraphNode.responder, apply_exec_delta s (executor_node s o.tool)) <
          rankOf (GraphNode.executor, s)
        simp only [rankOf]
        omega
      · rw [hd]
        refine ⟨⟨bool_eq_false_of_not hfa, ?_⟩, hretry', ?_,
          fun h => absurd h (by decide)⟩
        · show (apply_exec_delta s (executor_node s o.tool)).retry_count ≤ 1
          omega
        · intro _
          show rankOf (GraphNode.replanner, apply_exec_delta s (executor_node s o.tool)) <
            rankOf (GraphNode.executor, s)
          simp only [rankOf]
          rw [hretry']
          omega
      · exact absurd hany' hany
      · exact absurd hany' hany
  | replanner =>
    obtain ⟨hflag, hr1⟩ := hinv
    rw [stepNode_replanner_eq]
    have hretry' : (apply_replan_delta s (replanner_node s o.replan)).retry_count =
        s.retry_count + 1 :=
      replanner_retry s o.replan
    rcases check_cases (apply_replan_delta s (replanner_node s o.replan)) with
      hd | hd | hd | ⟨hd, hfa, hany, hlt⟩ | ⟨hd, hfa, hany, hnr⟩ |
      ⟨hd, hfa, hany, hrdy⟩
    · rw [hd]
      refine ⟨trivial, hretry', ?_, fun h => absurd h (by decide)⟩
      intro _
      show rankOf (GraphNode.clarify, apply_replan_delta s (replanner_node s o.replan)) <
        rankOf (GraphNode.replanner, s)
      simp only [rankOf]
      omega
    · rw [hd]
      refine ⟨trivial, hretry', ?_, fun h => absurd h (by decide)⟩
      intro _
      show rankOf (GraphNode.responder, apply_replan_delta s (replanner_node s o.replan)) <
        rankOf (GraphNode.replanner, s)
      simp only [rankOf]
      omega
    · rw [hd]
      refine ⟨trivial, hretry', ?_, fun h => absurd h (by decide)⟩
      intro _
      show rankOf (GraphNode.responder, apply_replan_delta s (replanner_node s o.replan)) <
        rankOf (GraphNode.replanner, s)
      simp only [rankOf]
      omega
    · rw [hd]
      refine ⟨trivial, hretry', ?_, fun h => absurd h (by decide)⟩
      intro _
      show rankOf (GraphNode.responder, apply_replan_delta s (replanner_node s o.replan)) <
        rankOf (GraphNode.replanner, s)
      simp only [rankOf]
      omega
    · rw [hd]
      refine ⟨trivial, hretry', ?_, fun h => absurd h (by decide)⟩
      intro _
      show rankOf (GraphNode.responder, apply_replan_delta s (replanner_node s o.replan)) <
        rankOf (GraphNode.replanner, s)
      simp only [rankOf]
      omega
    · rw [hd]
      refine ⟨⟨bool_eq_false_of_not hfa, ?_⟩, hretry', ?_,
        fun h => absurd h (by decide)⟩
      · intro hnr
        rw [hrdy] at hnr
        exact absurd hnr (by decide)
      · intro _
        show rankOf (GraphNode.executor, apply_replan_delta s (replanner_node s o.replan)) <
          rankOf (GraphNode.replanner, s)
        simp only [rankOf]
        rw [hretry']
        omega
  | responder =>
    exact ⟨trivial, rfl, fun h => absurd (Or.inl rfl) h, fun _ => rfl⟩
  | clarify =>
    exact ⟨trivial, rfl, fun h => absurd (Or.inr rfl) h, fun _ => rfl⟩

/-- The run invariant holds along every trace with failing tools, and the
replanning counter equals the number of replanner steps taken. -/
theorem runGraph_inv (msg : String) (os : Nat → Oracle)
    (hfail : ∀ n, (os n).tool.success = false) :
    ∀ n, InvNode (runGraph msg os n).1 (runGraph msg os n).2 ∧
      (runGraph msg os n).2.retry_count = replanCount msg os n := by
  intro n
  induction n with
  | zero => exact ⟨rfl, rfl⟩
  | succ n ih =>
    have hstep := stepNode_preserves (runGraph msg os n).1 (runGraph msg os n).2
      (os n) (hfail n) ih.1
    constructor
    · exact hstep.1
    · have h2 := hstep.2.1
      rw [ih.2] at h2
      exact h2

/-- With failing tools, the replanning coordinator runs at most twice. -/
theorem replanCount_le_two (msg : String) (os : Nat → Oracle)
    (hfail : ∀ n, (os n).tool.success = false) :
    ∀ n, replanCount msg os n ≤ 2 := by
  intro n
  induction n with
  | zero => exact Nat.zero_le 2
  | succ n ih =>
    show replanCount msg os n +
      (if (runGraph msg os n).1 = GraphNode.replanner then 1 else 0) ≤ 2
    by_cases h : (runGraph msg os n).1 = GraphNode.replanner
    · have hinv := (runGraph_inv msg os hfail n).1
      rw [h] at hinv
      have hr := hinv.2
      have hc := (runGraph_inv msg os hfail n).2
      rw [if_pos h]
      omega
    · rw [if_neg h]
      omega

/-- Along a failing-tools trace the termination measure pays for the step
count. -/
theorem runGraph_rank (msg : String) (os : Nat → Oracle)
    (hfail : ∀ n, (os n).tool.success = false) :
    ∀ n, isTerminal (runGraph msg os n).1 ∨
      rankOf (runGraph msg os n) + n ≤ 7 := by
  intro n
  induction n with
  | zero =>
    right
    show rankOf (GraphNode.planner, initState msg) + 0 ≤ 7
    simp [rankOf]
  | succ n ih =>
    have hstep := stepNode_preserves (runGraph msg os n).1 (runGraph msg os n).2
      (os n) (hfail n) (runGraph_inv msg os hfail n).1
    by_cases hterm : isTerminal (runGraph msg os n).1
    · left
      have heq : stepNode (runGraph msg os n) (os n) =
          ((runGraph msg os n).1, (runGraph msg os n).2) := hstep.2.2.2 hterm
      show isTerminal (stepNode (runGraph msg os n) (os n)).1
      rw [heq]
      exact hterm
    · rcases ih with hterm0 | hrank
      · exact absurd hterm0 hterm
      · right
        have hdec : rankOf (stepNode (runGraph msg os n) (os n)) <
            rankOf (runGraph msg os n) := hstep.2.2.1 hterm
        show rankOf (stepNode (runGraph msg os n) (os n)) + (n + 1) ≤ 7
        omega

/-- Under the run invariant, a non-terminal node has positive measure. -/
theorem nonterminal_rank_pos (st : GraphNode × OrchestratorState)
    (hinv : InvNode st.1 st.2) (hnt : ¬ isTerminal st.1) : 1 ≤ rankOf st := by
  obtain ⟨node, s⟩ := st
  cases node with
  | planner => simp [rankOf]
  | executor =>
    simp only [rankOf]
    omega
  | replanner =>
    obtain ⟨_, hr⟩ := hinv
    have hr' : s.retry_count ≤ 1 := hr
    simp only [rankOf]
    omega
  | responder => exact absurd (Or.inl rfl) hnt
  | clarify => exact absurd (Or.inr rfl) hnt

/-! ## C4 — bounded replanning -/

/-- C4: for every oracle stream on which tool invocations keep failing, the
run reaches a terminal phase (respond or clarify) within at most 7
controller steps, and the replanning coordinator runs at most
`ceiling + 1 = 3` times along the whole trace; the replanning counter is
incremented by exactly one on every invocation of `replanner_node`, on
every return path; and the transition checker consults the counter only
through the `≥ 2` ceiling test. -/
theorem bounded_replanning (user_message : String) (os : Nat → Oracle)
    (hfail : ∀ n, (os n).tool.success = false) :
    (∃ n, n ≤ 7 ∧ isTerminal (runGraph user_message os n).1) ∧
    (∀ n, replanCount user_message os n ≤ 3) ∧
    (∀ (s : OrchestratorState) (r : ReplanResponse),
      (replanner_node s r).retry_count = s.retry_count + 1) ∧
    (∀ (s : OrchestratorState) (r₁ r₂ : Nat), (r₁ ≥ 2 ↔ r₂ ≥ 2) →
      check_todo_status { s with retry_count := r₁ } =
        check_todo_status { s with retry_count := r₂ }) := by
  refine ⟨?_, ?_, replanner_retry, ?_⟩
  · refine ⟨7, Nat.le_refl 7, ?_⟩
    by_contra hnt
    rcases runGraph_rank user_message os hfail 7 with h | h
    · exact hnt h
    · have hpos := nonterminal_rank_pos (runGraph user_message os 7)
        (runGraph_inv user_message os hfail 7).1 hnt
      omega
  · intro n
    have := replanCount_le_two user_message os hfail n
    omega
  · intro s r₁ r₂ hiff
    rcases Nat.lt_or_ge r₁ 2 with h5 | h5
    · have h5' : ¬ r₁ ≥ 2 := by omega
      have h6 : ¬ r₂ ≥ 2 := fun hh => absurd (hiff.2 hh) h5'
      simp [check_todo_status, h5', h6]
    · have h6 : r₂ ≥ 2 := hiff.1 h5
      simp [check_todo_status, h5, h6]

/-- Concrete instantiation of the bounded-replanning theorem on the
constant all-failing oracle stream. -/
theorem bounded_replanning_witness :
    replanCount "hallo" (fun _ => oracleAllFail) 5 ≤ 3 :=
  (bounded_replanning "hallo" (fun _ => oracleAllFail) (fun _ => rfl)).2.1 5

end DamijanAgent
